import Mathlib

/-!
Verification of the Alert Lifecycle & Escalation Engine of the Safeguard-AI
backend: a shallow embedding of `backend/services/monitoringRules.js`, the
mongoose `Alert` and `Contact` models, and the alert routes
(`POST /api/alerts` fan-out, acknowledge / resolve / escalate endpoints).

Times are modelled as `Int` (JavaScript millisecond timestamps), confidences
as `ℚ`, Mongo ObjectIds as `String`.  Mongoose `save()` runs the schema
validators; the only validator relevant to the claims is
`escalationLevel: {min: 0, max: 3}`, so `save` is modelled as a validation
check: on failure the in-memory mutation is not persisted.  Fallible
JavaScript evaluation is modelled with `Except`.
-/

/-! ## Rule evaluator and cooldown tracker (`backend/services/monitoringRules.js`) -/

/-- `DEFAULT_COOLDOWN_MS`: 2 minutes, in milliseconds. -/
def DEFAULT_COOLDOWN_MS : Int := 2 * 60 * 1000

/-- `DEFAULT_INACTIVITY_THRESHOLD_MS`: 3 minutes, in milliseconds. -/
def DEFAULT_INACTIVITY_THRESHOLD_MS : Int := 3 * 60 * 1000

/-- `String.prototype.toLowerCase()`, embedded as a per-character map (the
strings this code compares against are plain ASCII). -/
def jsToLower (s : String) : String :=
  String.mk (s.data.map Char.toLower)

/-- `normalizeType(raw)`: `String(raw || '').toLowerCase()` then the alias
table.  A `null`/`undefined` raw type is `none` and coerces to `""`. -/
def normalizeType (raw : Option String) : String :=
  let t := jsToLower (raw.getD "")
  if t = "fall" ∨ t = "falls" then "fall"
  else if t = "inactivity" ∨ t = "idle" ∨ t = "prolonged_inactivity" then "inactivity"
  else if t = "normal" ∨ t = "safe" then "normal"
  else "unknown"

/-- `isDanger({type, durationMs})`.  `Number(durationMs || 0)` maps a missing
duration to `0`.  The inactivity threshold is read from the environment with
default `DEFAULT_INACTIVITY_THRESHOLD_MS`; it is passed here as `threshold`. -/
def isDanger (threshold : Int) (ty : Option String) (durationMs : Option Int) : Bool :=
  let t := normalizeType ty
  if t = "fall" then true
  else if t = "inactivity" then decide (durationMs.getD 0 ≥ threshold)
  else false

/-- `severityFor({type, confidence = 0, durationMs = 0})`. -/
def severityFor (threshold : Int) (ty : Option String) (confidence : ℚ)
    (durationMs : Int) : String :=
  let t := normalizeType ty
  if t = "fall" then
    if confidence ≥ 9/10 then "critical"
    else if confidence ≥ 7/10 then "high"
    else "medium"
  else if t = "inactivity" then
    if durationMs ≥ threshold * 2 then "high"
    else if durationMs ≥ threshold then "medium"
    else "low"
  else "low"

/-- The process-local `lastFired` map.  `lastFired.get(k) || 0` reads a missing
key as `0`, so the map is modelled as a total function that is initially
constantly `0`. -/
abbrev CooldownStore := String → Int

/-- `key(userId, type)`: the string `userId:type.toLowerCase()`. -/
def cooldownKey (userId ty : String) : String :=
  userId ++ ":" ++ jsToLower ty

/-- `shouldFire(userId, type, now, cooldownMs)`: returns the boolean result
together with the updated `lastFired` store. -/
def shouldFire (store : CooldownStore) (userId ty : String) (now cooldownMs : Int) :
    Bool × CooldownStore :=
  let k := cooldownKey userId ty
  let last := store k
  if now - last ≥ cooldownMs then (true, Function.update store k now)
  else (false, store)

/-! ## The Alert model (`backend/models/Alert.js`) -/

/-- The `status` enum of the alert schema. -/
inductive AlertStatus
  | active
  | acknowledged
  | resolved
  | escalated
  deriving DecidableEq, Repr, Inhabited

/-- One element of `escalationHistory`. -/
structure EscalationEntry where
  level : Nat
  timestamp : Int
  contactType : String
  contactId : String
  status : String
  response : Option String
  deriving DecidableEq, Repr, Inhabited

/-- One element of the `notifications` ledger. -/
structure Notification where
  contactId : String
  contactType : String
  sentAt : Int
  status : String
  deliveryAttempts : Nat
  lastAttempt : Int
  response : Option String
  deriving DecidableEq, Repr, Inhabited

/-- The Alert document restricted to the fields the claims touch.
`escalationLevel` defaults to 0 with schema validators `min: 0, max: 3`. -/
structure Alert where
  status : AlertStatus
  severity : String
  escalationLevel : Nat
  escalationHistory : List EscalationEntry
  notifications : List Notification
  acknowledgedAt : Option Int
  acknowledgedBy : Option String
  resolvedAt : Option Int
  resolvedBy : Option String
  deriving DecidableEq, Repr, Inhabited

/-- The schema validators that `save()` runs on the fields modelled here:
`escalationLevel` must not exceed its `max: 3` bound (`min: 0` is implicit in
`Nat`). -/
def Alert.validates (a : Alert) : Bool :=
  a.escalationLevel ≤ 3

/-- `alertSchema.methods.acknowledge(userId)`: the in-memory document
mutation performed before `save()`. -/
def Alert.acknowledgeMut (a : Alert) (userId : String) (now : Int) : Alert :=
  { a with status := .acknowledged, acknowledgedAt := some now, acknowledgedBy := some userId }

/-- `alertSchema.methods.resolve(userId)`: the in-memory document mutation
performed before `save()`. -/
def Alert.resolveMut (a : Alert) (userId : String) (now : Int) : Alert :=
  { a with status := .resolved, resolvedAt := some now, resolvedBy := some userId }

/-- `alertSchema.methods.escalate(contactType, contactId)`: increment
`escalationLevel`, push one history entry carrying the incremented level, and
set status to `escalated` once the level is at least 3.  This is the in-memory
mutation performed before `save()`; there is no cap check in the method. -/
def Alert.escalateMut (a : Alert) (contactType contactId : String) (now : Int) : Alert :=
  let newLevel := a.escalationLevel + 1
  let a' := { a with
    escalationLevel := newLevel,
    escalationHistory := a.escalationHistory ++
      [{ level := newLevel, timestamp := now, contactType := contactType,
         contactId := contactId, status := "sent", response := none }] }
  if newLevel ≥ 3 then { a' with status := .escalated } else a'

/-- `alertSchema.methods.addNotification(contactId, contactType)`: append one
`pending` ledger entry with zero delivery attempts. -/
def Alert.addNotification (a : Alert) (contactId contactType : String) (now : Int) : Alert :=
  { a with notifications := a.notifications ++
      [{ contactId := contactId, contactType := contactType, sentAt := now,
         status := "pending", deliveryAttempts := 0, lastAttempt := now, response := none }] }

/-- The field updates applied to the ledger entry located by
`updateNotificationStatus`: set `status`, stamp `lastAttempt`, increment
`deliveryAttempts` only when the new status is `failed`, and overwrite
`response` only when a (truthy) response is given. -/
def applyStatusUpdate (n : Notification) (st : String) (resp : Option String)
    (now : Int) : Notification :=
  { n with
    status := st,
    lastAttempt := now,
    deliveryAttempts := if st = "failed" then n.deliveryAttempts + 1 else n.deliveryAttempts,
    response := match resp with | some r => some r | none => n.response }

/-- `this.notifications.find(n => n.contactId.toString() === contactId.toString())`
locates the FIRST entry whose `contactId` matches (the channel is not
consulted), and the update mutates that entry in place. -/
def updateFirstMatching (cid st : String) (resp : Option String) (now : Int) :
    List Notification → List Notification
  | [] => []
  | n :: rest =>
    if n.contactId = cid then applyStatusUpdate n st resp now :: rest
    else n :: updateFirstMatching cid st resp now rest

/-- `alertSchema.methods.updateNotificationStatus(contactId, status, response)`. -/
def Alert.updateNotificationStatus (a : Alert) (cid st : String) (resp : Option String)
    (now : Int) : Alert :=
  { a with notifications := updateFirstMatching cid st resp now a.notifications }

/-! ## Endpoint-level operations (`backend/routes/alerts.js`)

Each route loads the persisted alert, performs its status guard, runs the
schema method, and the method ends in `save()`.  A failed guard returns a
typed error before any mutation; a failed validation rejects the save so the
persisted document is unchanged. -/

/-- The typed errors of the alert lifecycle endpoints:
`AlreadyResolved` is the route answer `Alert is already resolved`,
`InvalidTransition` the answers `Cannot acknowledge resolved alert` and
`Cannot escalate resolved alert`, `ValidationError` a rejected `save()`. -/
inductive AlertError
  | AlreadyResolved
  | InvalidTransition
  | ValidationError
  deriving DecidableEq, Repr

/-- `PUT /api/alerts/:id/acknowledge`: guard on `resolved`, then
`alert.acknowledge(userId)` followed by the validating save. -/
def acknowledgeOp (a : Alert) (userId : String) (now : Int) : Except AlertError Alert :=
  if a.status = .resolved then .error .InvalidTransition
  else
    let a' := a.acknowledgeMut userId now
    if a'.validates then .ok a' else .error .ValidationError

/-- `PUT /api/alerts/:id/resolve`: guard on `resolved`, then
`alert.resolve(userId)` followed by the validating save. -/
def resolveOp (a : Alert) (userId : String) (now : Int) : Except AlertError Alert :=
  if a.status = .resolved then .error .AlreadyResolved
  else
    let a' := a.resolveMut userId now
    if a'.validates then .ok a' else .error .ValidationError

/-- `PUT /api/alerts/:id/escalate`: guard on `resolved`, then
`alert.escalate(contactType, contactId)` followed by the validating save. -/
def escalateOp (a : Alert) (contactType contactId : String) (now : Int) :
    Except AlertError Alert :=
  if a.status = .resolved then .error .InvalidTransition
  else
    let a' := a.escalateMut contactType contactId now
    if a'.validates then .ok a' else .error .ValidationError

/-- The persisted document after an endpoint call: the new document on a
successful save, the untouched stored document when the call errored. -/
def persistedAfter (a : Alert) (r : Except AlertError Alert) : Alert :=
  match r with
  | .ok a' => a'
  | .error _ => a

/-- One persisted escalate endpoint call (result state only). -/
def escalateStep (contactType contactId : String) (now : Int) (a : Alert) : Alert :=
  persistedAfter a (escalateOp a contactType contactId now)

/-- A sequence of raw `escalate(contactType, contactId)` method calls on the
in-memory document (each triple is `(contactType, contactId, now)`). -/
def escalateMutTrace (a : Alert) (calls : List (String × String × Int)) : Alert :=
  calls.foldl (fun acc c => acc.escalateMut c.1 c.2.1 c.2.2) a

/-! ## The Contact model (`backend/models/Contact.js`) -/

/-- One per-channel block of `notificationPreferences` (the `frequency`
field plays no role in the claims). -/
structure ChannelPref where
  enabled : Bool
  deriving DecidableEq, Repr, Inhabited

/-- `notificationPreferences`. -/
structure NotificationPreferences where
  email : ChannelPref
  sms : ChannelPref
  push : ChannelPref
  deriving DecidableEq, Repr, Inhabited

/-- One weekday block of `availability` (`start`/`end` are `HH:MM` strings;
the source field `end` is a Lean keyword and is rendered `endT`). -/
structure DaySchedule where
  start : Option String
  endT : Option String
  available : Bool
  deriving DecidableEq, Repr, Inhabited

/-- `availability`, keyed by the full weekday names of the schema. -/
structure Availability where
  monday : DaySchedule
  tuesday : DaySchedule
  wednesday : DaySchedule
  thursday : DaySchedule
  friday : DaySchedule
  saturday : DaySchedule
  sunday : DaySchedule
  deriving DecidableEq, Repr, Inhabited

/-- The Contact document restricted to the fields the claims touch
(`id` is the Mongo `_id`). -/
structure Contact where
  id : String
  userId : String
  firstName : String
  lastName : String
  phone : String
  isPrimary : Bool
  isActive : Bool
  notificationPreferences : NotificationPreferences
  alertTypes : List String
  availability : Availability
  deriving DecidableEq, Repr, Inhabited

/-- JavaScript runtime failures surfaced by the embedding. -/
inductive JsError
  | typeError
  deriving DecidableEq, Repr

/-- `contactSchema.methods.isAvailableAt(dateTime)`.  After the
`if (!this.isActive) return false` guard the source evaluates
`dateTime.toLocaleLowerCase().slice(0, 3)`; a JavaScript `Date` has no
`toLocaleLowerCase` method (it is a `String` method), so this line raises
`TypeError` and the weekday/time checks below it are unreachable. -/
def Contact.isAvailableAt (c : Contact) (_dateTime : Int) : Except JsError Bool :=
  if c.isActive = false then .ok false
  else .error .typeError

/-- The Mongo query filter of `getAvailableContactsForAlert`: same owner,
`isActive`, `alertTypes` contains the alert type, and at least one channel
enabled (the `$or` clause). -/
def contactPreFilter (uid alertType : String) (c : Contact) : Bool :=
  c.userId == uid && c.isActive && c.alertTypes.contains alertType &&
    (c.notificationPreferences.email.enabled ||
     c.notificationPreferences.sms.enabled ||
     c.notificationPreferences.push.enabled)

/-- `Array.prototype.filter` with a predicate that may throw: elements are
tested left to right and the first raised error aborts the whole filter. -/
def jsFilter {α ε : Type} (p : α → Except ε Bool) : List α → Except ε (List α)
  | [] => .ok []
  | x :: xs => do
    let b ← p x
    let rest ← jsFilter p xs
    pure (if b then x :: rest else rest)

/-- `contactSchema.statics.getAvailableContactsForAlert(userId, alertType, dateTime)`:
the find-query pre-filter, then `contacts.filter(c => c.isAvailableAt(dateTime))`.
No sort is applied by this static (unlike `getContactsByType`). -/
def getAvailableContactsForAlert (db : List Contact) (uid alertType : String)
    (dateTime : Int) : Except JsError (List Contact) :=
  jsFilter (fun c => c.isAvailableAt dateTime) (db.filter (contactPreFilter uid alertType))

/-! ## Notification fan-out on alert creation (`POST /api/alerts`)

The loop body per contact: for each enabled channel append a `pending`
ledger entry, attempt delivery, and report the outcome through
`updateNotificationStatus` — except for push, whose promise only logs on
failure and never updates the ledger.  Every email failure is caught in its
own `try`/`catch` and the SMS send is a fire-and-forget promise with its own
`.catch`, so no outcome aborts the loop.  The SMS callback runs after the
awaited email update of the same iteration; since `updateNotificationStatus`
always targets the first ledger entry matching the `contactId`, the entry it
hits does not depend on when the callback fires.  Send outcomes are supplied
as oracles `emailOk`/`smsOk` indexed by contact id; `hasRecipients` is
whether `ALERT_EMAIL_TO` is configured. -/

/-- The fan-out loop body for one contact. -/
def fanoutContact (hasRecipients : Bool) (emailOk smsOk : String → Bool) (now : Int)
    (a : Alert) (c : Contact) : Alert :=
  let a1 :=
    if c.notificationPreferences.email.enabled then
      let aN := a.addNotification c.id "email" now
      if hasRecipients then
        if emailOk c.id then aN.updateNotificationStatus c.id "sent" (some "Email sent: ok") now
        else aN.updateNotificationStatus c.id "failed" (some "Email failed") now
      else aN.updateNotificationStatus c.id "failed" (some "No ALERT_EMAIL_TO configured") now
    else a
  let a2 :=
    if c.notificationPreferences.sms.enabled then
      let aN := a1.addNotification c.id "sms" now
      if smsOk c.id then aN.updateNotificationStatus c.id "sent" (some "SMS sent") now
      else aN.updateNotificationStatus c.id "failed" (some "SMS failed") now
    else a1
  if c.notificationPreferences.push.enabled then
    a2.addNotification c.id "push" now
  else a2

/-- The whole `for (const contact of contacts)` fan-out loop. -/
def fanout (hasRecipients : Bool) (emailOk smsOk : String → Bool) (now : Int)
    (a : Alert) (cs : List Contact) : Alert :=
  cs.foldl (fanoutContact hasRecipients emailOk smsOk now) a

/-- The channels enabled in a contact's preferences, in the order the
fan-out loop visits them. -/
def enabledChannels (c : Contact) : List String :=
  (if c.notificationPreferences.email.enabled then ["email"] else []) ++
  (if c.notificationPreferences.sms.enabled then ["sms"] else []) ++
  (if c.notificationPreferences.push.enabled then ["push"] else [])

/-! ## Helper lemmas -/

/-- The escalate mutation always increments the level by exactly one. -/
theorem escalateMut_level (a : Alert) (ct ci : String) (now : Int) :
    (a.escalateMut ct ci now).escalationLevel = a.escalationLevel + 1 := by
  by_cases h : a.escalationLevel + 1 ≥ 3 <;> simp [Alert.escalateMut, h]

/-- The escalate mutation appends exactly the one entry carrying the
incremented level. -/
theorem escalateMut_history (a : Alert) (ct ci : String) (now : Int) :
    (a.escalateMut ct ci now).escalationHistory
      = a.escalationHistory ++
        [{ level := a.escalationLevel + 1, timestamp := now, contactType := ct,
           contactId := ci, status := "sent", response := none }] := by
  by_cases h : a.escalationLevel + 1 ≥ 3 <;> simp [Alert.escalateMut, h]

/-- The escalate mutation sets `escalated` exactly when the incremented
level reaches 3. -/
theorem escalateMut_status (a : Alert) (ct ci : String) (now : Int) :
    (a.escalateMut ct ci now).status
      = if a.escalationLevel + 1 ≥ 3 then AlertStatus.escalated else a.status := by
  by_cases h : a.escalationLevel + 1 ≥ 3 <;> simp [Alert.escalateMut, h]

/-- A persisted escalate endpoint call keeps the schema bound. -/
theorem escalateStep_level_le (ct ci : String) (now : Int) (a : Alert)
    (h : a.escalationLevel ≤ 3) : (escalateStep ct ci now a).escalationLevel ≤ 3 := by
  unfold escalateStep escalateOp persistedAfter
  by_cases hres : a.status = AlertStatus.resolved
  · simp [hres, h]
  · by_cases hv : (a.escalateMut ct ci now).validates
    · have hv' : (a.escalateMut ct ci now).escalationLevel ≤ 3 := by
        simpa [Alert.validates, decide_eq_true_eq] using hv
      simp [hres, hv, hv']
    · simp [hres, hv, h]

/-- Level and history-level trace of a sequence of escalate mutations. -/
theorem escalateMutTrace_spec (calls : List (String × String × Int)) (a : Alert) :
    (escalateMutTrace a calls).escalationLevel = a.escalationLevel + calls.length ∧
    (escalateMutTrace a calls).escalationHistory.map EscalationEntry.level
      = a.escalationHistory.map EscalationEntry.level
        ++ List.range' (a.escalationLevel + 1) calls.length := by
  induction calls generalizing a with
  | nil => simp [escalateMutTrace]
  | cons c cs ih =>
    have hstep : escalateMutTrace a (c :: cs)
        = escalateMutTrace (a.escalateMut c.1 c.2.1 c.2.2) cs := rfl
    obtain ⟨ihl, ihh⟩ := ih (a.escalateMut c.1 c.2.1 c.2.2)
    constructor
    · rw [hstep, ihl, escalateMut_level, List.length_cons]
      omega
    · rw [hstep, ihh, escalateMut_history, escalateMut_level]
      simp [List.length_cons, List.range'_succ, List.append_assoc]

/-- `updateNotificationStatus` with a matching entry: the FIRST match (every
earlier entry has a different `contactId`) is updated in place. -/
theorem updateFirstMatching_found (cid st : String) (resp : Option String) (now : Int)
    (pre post : List Notification) (n : Notification)
    (hpre : ∀ m ∈ pre, m.contactId ≠ cid) (hn : n.contactId = cid) :
    updateFirstMatching cid st resp now (pre ++ n :: post)
      = pre ++ applyStatusUpdate n st resp now :: post := by
  induction pre with
  | nil => simp [updateFirstMatching, hn]
  | cons m rest ih =>
    have hm : m.contactId ≠ cid := hpre m (by simp)
    have hrest : ∀ x ∈ rest, x.contactId ≠ cid := fun x hx => hpre x (by simp [hx])
    simp only [List.cons_append, updateFirstMatching, if_neg hm]
    exact congrArg (List.cons m) (ih hrest)

/-- `updateNotificationStatus` with no matching entry leaves the ledger
untouched. -/
theorem updateFirstMatching_none (cid st : String) (resp : Option String) (now : Int)
    (l : List Notification) (h : ∀ m ∈ l, m.contactId ≠ cid) :
    updateFirstMatching cid st resp now l = l := by
  induction l with
  | nil => rfl
  | cons m rest ih =>
    have hm : m.contactId ≠ cid := h m (by simp)
    have hrest : ∀ x ∈ rest, x.contactId ≠ cid := fun x hx => h x (by simp [hx])
    simp only [updateFirstMatching, if_neg hm]
    rw [ih hrest]

/-- Updating never changes the ledger length. -/
theorem updateFirstMatching_length (cid st : String) (resp : Option String) (now : Int)
    (l : List Notification) :
    (updateFirstMatching cid st resp now l).length = l.length := by
  induction l with
  | nil => rfl
  | cons m rest ih =>
    by_cases hm : m.contactId = cid <;> simp [updateFirstMatching, hm, ih]

/-- The `(contactId, contactType)` key sequence of the ledger. -/
def notifKeys (a : Alert) : List (String × String) :=
  a.notifications.map (fun n => (n.contactId, n.contactType))

/-- Appending a notification appends its key. -/
theorem notifKeys_addNotification (a : Alert) (cid ch : String) (t : Int) :
    notifKeys (a.addNotification cid ch t) = notifKeys a ++ [(cid, ch)] := by
  simp [notifKeys, Alert.addNotification]

/-- A status update never changes the key sequence of the ledger. -/
theorem notifKeys_updateNotificationStatus (a : Alert) (cid st : String)
    (resp : Option String) (now : Int) :
    notifKeys (a.updateNotificationStatus cid st resp now) = notifKeys a := by
  simp only [notifKeys, Alert.updateNotificationStatus]
  induction a.notifications with
  | nil => rfl
  | cons m rest ih =>
    by_cases hm : m.contactId = cid <;>
      simp [updateFirstMatching, hm, applyStatusUpdate, ih]

/-- The fan-out loop body appends exactly one ledger entry per enabled
channel of the contact, whatever the outcomes are. -/
theorem fanoutContact_keys (hasR : Bool) (eOk sOk : String → Bool) (now : Int)
    (a : Alert) (c : Contact) :
    notifKeys (fanoutContact hasR eOk sOk now a c)
      = notifKeys a ++ (enabledChannels c).map (fun ch => (c.id, ch)) := by
  simp only [fanoutContact, enabledChannels]
  split_ifs <;>
    simp [notifKeys_addNotification, notifKeys_updateNotificationStatus,
      List.append_assoc]

/-- The whole fan-out loop appends exactly one ledger entry per enabled
channel of every contact, whatever the outcomes are. -/
theorem fanout_keys (hasR : Bool) (eOk sOk : String → Bool) (now : Int)
    (a : Alert) (cs : List Contact) :
    notifKeys (fanout hasR eOk sOk now a cs)
      = notifKeys a ++ cs.flatMap (fun c => (enabledChannels c).map (fun ch => (c.id, ch))) := by
  induction cs generalizing a with
  | nil => simp [fanout]
  | cons c rest ih =>
    have hstep : fanout hasR eOk sOk now a (c :: rest)
        = fanout hasR eOk sOk now (fanoutContact hasR eOk sOk now a c) rest := rfl
    rw [hstep, ih, fanoutContact_keys]
    simp [List.append_assoc]

/-! ## Sample documents used by counterexamples and witnesses -/

/-- A freshly created alert: schema defaults (`status: active`,
`escalationLevel: 0`, empty history and ledger). -/
def freshAlert : Alert :=
  { status := .active, severity := "critical", escalationLevel := 0,
    escalationHistory := [], notifications := [], acknowledgedAt := none,
    acknowledgedBy := none, resolvedAt := none, resolvedBy := none }

/-- An alert that has been escalated three times: level 3, status
`escalated`, three history entries. -/
def levelThreeAlert : Alert :=
  { status := .escalated, severity := "critical", escalationLevel := 3,
    escalationHistory :=
      [{ level := 1, timestamp := 10, contactType := "sms", contactId := "c1",
         status := "sent", response := none },
       { level := 2, timestamp := 20, contactType := "sms", contactId := "c1",
         status := "sent", response := none },
       { level := 3, timestamp := 30, contactType := "sms", contactId := "c1",
         status := "sent", response := none }],
    notifications := [], acknowledgedAt := none, acknowledgedBy := none,
    resolvedAt := none, resolvedBy := none }

/-- An alert holding two ledger entries for the same contact and the same
channel, the second more recent than the first. -/
def twoEntryAlert : Alert :=
  { status := .active, severity := "high", escalationLevel := 0,
    escalationHistory := [],
    notifications :=
      [{ contactId := "c1", contactType := "email", sentAt := 0,
         status := "pending", deliveryAttempts := 0, lastAttempt := 0, response := none },
       { contactId := "c1", contactType := "email", sentAt := 10,
         status := "pending", deliveryAttempts := 0, lastAttempt := 10, response := none }],
    acknowledgedAt := none, acknowledgedBy := none, resolvedAt := none,
    resolvedBy := none }

/-- An active, fully reachable contact subscribed to fall alerts, with all
three channels enabled. -/
def sampleContact : Contact :=
  { id := "c1", userId := "u1", firstName := "Ada", lastName := "Lee",
    phone := "5550001", isPrimary := true, isActive := true,
    notificationPreferences :=
      { email := { enabled := true }, sms := { enabled := true },
        push := { enabled := true } },
    alertTypes := ["fall", "inactivity"],
    availability := default }

/-! ## Claim theorems -/

/-- C5: for every confidence and durationMs, `severityFor` on a normalized
`fall` event returns `critical` when confidence ≥ 0.9, `high` when
0.7 ≤ confidence < 0.9 and `medium` otherwise; on a normalized `inactivity`
event it returns `high` when durationMs ≥ 2×threshold, `medium` when
threshold ≤ durationMs < 2×threshold and `low` otherwise; and on every other
normalized type it returns `low`. -/
theorem C5_severity_rules (raw : Option String) (confidence : ℚ)
    (durationMs threshold : Int) :
    (normalizeType raw = "fall" →
      (confidence ≥ 9/10 → severityFor threshold raw confidence durationMs = "critical") ∧
      (7/10 ≤ confidence → confidence < 9/10 →
        severityFor threshold raw confidence durationMs = "high") ∧
      (confidence < 7/10 → severityFor threshold raw confidence durationMs = "medium")) ∧
    (normalizeType raw = "inactivity" →
      (durationMs ≥ threshold * 2 → severityFor threshold raw confidence durationMs = "high") ∧
      (threshold ≤ durationMs → durationMs < threshold * 2 →
        severityFor threshold raw confidence durationMs = "medium") ∧
      (durationMs < threshold → durationMs < threshold * 2 →
        severityFor threshold raw confidence durationMs = "low")) ∧
    (normalizeType raw ≠ "fall" → normalizeType raw ≠ "inactivity" →
      severityFor threshold raw confidence durationMs = "low") := by
  refine ⟨fun hf => ⟨fun hc => ?_, fun h7 h9 => ?_, fun h7 => ?_⟩,
    fun hi => ⟨fun hd => ?_, fun hd1 hd2 => ?_, fun hd1 hd2 => ?_⟩,
    fun hnf hni => ?_⟩
  · simp [severityFor, hf, hc]
  · simp [severityFor, hf, h7, not_le.mpr h9]
  · have h9 : confidence < 9/10 := lt_trans h7 (by norm_num)
    simp [severityFor, hf, not_le.mpr h7, not_le.mpr h9]
  · simp [severityFor, hi, hd]
  · simp [severityFor, hi, hd1, not_le.mpr hd2]
  · simp [severityFor, hi, not_le.mpr hd1, not_le.mpr hd2]
  · simp [severityFor, hnf, hni]

/-- C5 witness: the three spec checkpoints `severityFor("fall", 0.95, *) =
critical`, `severityFor("fall", 0.75, *) = high`,
`severityFor("fall", 0.5, *) = medium`. -/
theorem C5_severity_rules_witness :
    severityFor 180000 (some "fall") (95/100) 0 = "critical" ∧
    severityFor 180000 (some "fall") (75/100) 0 = "high" ∧
    severityFor 180000 (some "fall") (5/10) 0 = "medium" :=
  ⟨((C5_severity_rules (some "fall") (95/100) 0 180000).1 (by decide)).1 (by norm_num),
   (((C5_severity_rules (some "fall") (75/100) 0 180000).1 (by decide)).2.1
      (by norm_num) (by norm_num)),
   ((C5_severity_rules (some "fall") (5/10) 0 180000).1 (by decide)).2.2 (by norm_num)⟩

/-- C6: `isDanger` classifies every normalized `fall` as dangerous whatever
the duration, classifies `inactivity` as dangerous iff durationMs ≥
threshold, and classifies every other type as non-dangerous; any raw type
outside the known aliases (including a missing one) normalizes to `unknown`,
and the default threshold is 3 minutes (180000 ms). -/
theorem C6_danger_classification (raw : Option String) (durationMs : Option Int)
    (threshold : Int) :
    (normalizeType raw = "fall" → isDanger threshold raw durationMs = true) ∧
    (normalizeType raw = "inactivity" →
      (isDanger threshold raw durationMs = true ↔ durationMs.getD 0 ≥ threshold)) ∧
    (normalizeType raw ≠ "fall" → normalizeType raw ≠ "inactivity" →
      isDanger threshold raw durationMs = false) ∧
    (jsToLower (raw.getD "") ∉
        (["fall", "falls", "inactivity", "idle", "prolonged_inactivity",
          "normal", "safe"] : List String) →
      normalizeType raw = "unknown") ∧
    DEFAULT_INACTIVITY_THRESHOLD_MS = 180000 := by
  refine ⟨fun hf => ?_, fun hi => ?_, fun hnf hni => ?_, fun halias => ?_,
    by norm_num [DEFAULT_INACTIVITY_THRESHOLD_MS]⟩
  · simp [isDanger, hf]
  · simp [isDanger, hi]
  · simp [isDanger, hnf, hni]
  · simp only [List.mem_cons, List.not_mem_nil, or_false, not_or] at halias
    obtain ⟨h1, h2, h3, h4, h5, h6, h7⟩ := halias
    simp [normalizeType, h1, h2, h3, h4, h5, h6, h7]

/-- C6 witness: a fall with zero duration is dangerous, a 2-minute
inactivity is not at the default 3-minute threshold, and an arbitrary raw
type normalizes to `unknown` and is non-dangerous. -/
theorem C6_danger_classification_witness :
    isDanger 180000 (some "FALL") (some 0) = true ∧
    isDanger 180000 (some "idle") (some 200000) = true ∧
    normalizeType none = "unknown" ∧
    isDanger 180000 (some "garbage!!") none = false :=
  ⟨(C6_danger_classification (some "FALL") (some 0) 180000).1 (by decide),
   ((C6_danger_classification (some "idle") (some 200000) 180000).2.1
      (by decide)).mpr (by decide),
   (C6_danger_classification none none 180000).2.2.2.1 (by decide),
   (C6_danger_classification (some "garbage!!") none 180000).2.2.1 (by decide) (by decide)⟩

/-- The boolean result of `shouldFire` is exactly the cooldown test. -/
theorem shouldFire_fst (store : CooldownStore) (u ty : String) (t window : Int) :
    (shouldFire store u ty t window).1
      = decide (t - store (cooldownKey u ty) ≥ window) := by
  by_cases h : t - store (cooldownKey u ty) ≥ window <;> simp [shouldFire, h]

/-- A firing call records `now` under the key. -/
theorem shouldFire_snd_pos (store : CooldownStore) (u ty : String) (t window : Int)
    (h : t - store (cooldownKey u ty) ≥ window) :
    (shouldFire store u ty t window).2
      = Function.update store (cooldownKey u ty) t := by
  simp [shouldFire, h]

/-- A suppressed call leaves the store untouched. -/
theorem shouldFire_snd_neg (store : CooldownStore) (u ty : String) (t window : Int)
    (h : ¬ t - store (cooldownKey u ty) ≥ window) :
    (shouldFire store u ty t window).2 = store := by
  simp [shouldFire, h]

/-- C2: `resolve` succeeds from every non-resolved status, unconditionally
sets status to `resolved` (overriding `escalated`) stamping
`resolvedAt`/`resolvedBy` and changing nothing else (the result is exactly
`resolveMut`, a record update of those three fields); a second `resolve` on
the result fails with `AlreadyResolved` and leaves the whole alert
unchanged. -/
theorem C2_resolve_idempotent_safe (a : Alert) (u1 u2 : String) (t1 t2 : Int)
    (hna : a.status ≠ AlertStatus.resolved) (hlv : a.escalationLevel ≤ 3) :
    resolveOp a u1 t1 = Except.ok (a.resolveMut u1 t1) ∧
    (a.resolveMut u1 t1).status = AlertStatus.resolved ∧
    (a.resolveMut u1 t1).resolvedAt = some t1 ∧
    (a.resolveMut u1 t1).resolvedBy = some u1 ∧
    (a.resolveMut u1 t1).severity = a.severity ∧
    (a.resolveMut u1 t1).escalationLevel = a.escalationLevel ∧
    (a.resolveMut u1 t1).notifications = a.notifications ∧
    resolveOp (a.resolveMut u1 t1) u2 t2 = Except.error AlertError.AlreadyResolved ∧
    persistedAfter (a.resolveMut u1 t1) (resolveOp (a.resolveMut u1 t1) u2 t2)
      = a.resolveMut u1 t1 := by
  refine ⟨?_, rfl, rfl, rfl, rfl, rfl, rfl, ?_, ?_⟩
  · simp [resolveOp, Alert.resolveMut, Alert.validates, hna, hlv]
  · simp [resolveOp, Alert.resolveMut]
  · simp [resolveOp, Alert.resolveMut, persistedAfter]

/-- C2 witness: resolving a level-3 `escalated` alert succeeds and overrides
the status; the repeated call errors with `AlreadyResolved`, both through the
theorem at this concrete alert. -/
theorem C2_resolve_idempotent_safe_witness :
    resolveOp levelThreeAlert "u9" 50 = Except.ok (levelThreeAlert.resolveMut "u9" 50) ∧
    resolveOp (levelThreeAlert.resolveMut "u9" 50) "u8" 60
      = Except.error AlertError.AlreadyResolved :=
  ⟨(C2_resolve_idempotent_safe levelThreeAlert "u9" "u8" 50 60 (by decide) (by decide)).1,
   (C2_resolve_idempotent_safe levelThreeAlert "u9" "u8" 50 60
      (by decide) (by decide)).2.2.2.2.2.2.2.1⟩

/-- C3: `acknowledge` is legal from `active`, `escalated` and `acknowledged`
— the result is exactly `acknowledgeMut`, a record update setting only
`status`, `acknowledgedAt` and `acknowledgedBy` (so severity is untouched) —
and on a `resolved` alert it fails with `InvalidTransition` leaving the
alert completely unchanged. -/
theorem C3_acknowledge_transitions (a : Alert) (u : String) (t : Int)
    (hlv : a.escalationLevel ≤ 3) :
    (a.status = AlertStatus.active ∨ a.status = AlertStatus.escalated ∨
        a.status = AlertStatus.acknowledged →
      acknowledgeOp a u t = Except.ok (a.acknowledgeMut u t)) ∧
    (a.acknowledgeMut u t).status = AlertStatus.acknowledged ∧
    (a.acknowledgeMut u t).acknowledgedAt = some t ∧
    (a.acknowledgeMut u t).acknowledgedBy = some u ∧
    (a.acknowledgeMut u t).severity = a.severity ∧
    (persistedAfter a (acknowledgeOp a u t)).severity = a.severity ∧
    (a.status = AlertStatus.resolved →
      acknowledgeOp a u t = Except.error AlertError.InvalidTransition ∧
      persistedAfter a (acknowledgeOp a u t) = a) := by
  refine ⟨fun hs => ?_, rfl, rfl, rfl, rfl, ?_, fun hs => ?_⟩
  · have hns : a.status ≠ AlertStatus.resolved := by
      rcases hs with h | h | h <;> simp [h]
    simp [acknowledgeOp, Alert.acknowledgeMut, Alert.validates, hns, hlv]
  · by_cases hns : a.status = AlertStatus.resolved
    · simp [acknowledgeOp, persistedAfter, hns]
    · simp [acknowledgeOp, Alert.acknowledgeMut, Alert.validates, persistedAfter, hns, hlv]
  · constructor
    · simp [acknowledgeOp, hs]
    · simp [acknowledgeOp, persistedAfter, hs]

/-- C3 witness: acknowledging a resolved alert errors with
`InvalidTransition` and persists nothing; acknowledging an active alert
succeeds. -/
theorem C3_acknowledge_transitions_witness :
    acknowledgeOp (freshAlert.resolveMut "u0" 1) "u1" 5
      = Except.error AlertError.InvalidTransition ∧
    acknowledgeOp freshAlert "u1" 5 = Except.ok (freshAlert.acknowledgeMut "u1" 5) :=
  ⟨((C3_acknowledge_transitions (freshAlert.resolveMut "u0" 1) "u1" 5
      (by decide)).2.2.2.2.2.2 rfl).1,
   (C3_acknowledge_transitions freshAlert "u1" 5 (by decide)).1 (Or.inl rfl)⟩

/-- C4 (amended): `shouldFire` returns true and records `now` iff
`now − lastFired[key] ≥ cooldownWindow` (a never-fired key reads as 0) and
otherwise leaves the store untouched; two calls within one window are never
both true; and for two calls spaced at least a window apart the SECOND is
always true (given the stored time is not in the future of the first call),
with BOTH true exactly when the first call itself fires. -/
theorem C4_cooldown_check_and_set (store : CooldownStore) (u ty : String)
    (t1 t2 window : Int) :
    ((shouldFire store u ty t1 window).1 = true ↔
      t1 - store (cooldownKey u ty) ≥ window) ∧
    (t1 - store (cooldownKey u ty) ≥ window →
      (shouldFire store u ty t1 window).2
        = Function.update store (cooldownKey u ty) t1) ∧
    (t1 - store (cooldownKey u ty) < window →
      (shouldFire store u ty t1 window).2 = store) ∧
    (t2 - t1 < window →
      ¬((shouldFire store u ty t1 window).1 = true ∧
        (shouldFire (shouldFire store u ty t1 window).2 u ty t2 window).1 = true)) ∧
    (t2 - t1 ≥ window → store (cooldownKey u ty) ≤ t1 →
      (shouldFire (shouldFire store u ty t1 window).2 u ty t2 window).1 = true) := by
  refine ⟨by simp [shouldFire_fst], shouldFire_snd_pos store u ty t1 window,
    fun hlt => shouldFire_snd_neg store u ty t1 window (not_le.mpr hlt),
    fun hlt hb => ?_, fun hge hle => ?_⟩
  · obtain ⟨hb1, hb2⟩ := hb
    rw [shouldFire_fst, decide_eq_true_eq] at hb1
    rw [shouldFire_snd_pos store u ty t1 window hb1, shouldFire_fst,
      decide_eq_true_eq, Function.update_same] at hb2
    omega
  · rcases le_or_lt window (t1 - store (cooldownKey u ty)) with h1 | h1
    · rw [shouldFire_snd_pos store u ty t1 window h1, shouldFire_fst,
        decide_eq_true_eq, Function.update_same]
      omega
    · rw [shouldFire_snd_neg store u ty t1 window (not_le.mpr h1), shouldFire_fst,
        decide_eq_true_eq]
      omega

/-- C4 witness: with real-clock timestamps both calls spaced a window apart
fire. -/
theorem C4_cooldown_check_and_set_witness :
    (shouldFire (fun _ => 0) "u1" "fall" 200000 120000).1 = true ∧
    (shouldFire ((shouldFire (fun _ => 0) "u1" "fall" 200000 120000).2)
        "u1" "fall" 330000 120000).1 = true :=
  ⟨(C4_cooldown_check_and_set (fun _ => 0) "u1" "fall" 200000 330000 120000).1.mpr
      (by norm_num),
   (C4_cooldown_check_and_set (fun _ => 0) "u1" "fall" 200000 330000 120000).2.2.2.2
      (by norm_num) (by norm_num)⟩

/-- C4 counterexample: on a never-fired key (stored time 0) a first call at
`now = 1` with window 2 returns false even though the second call at
`now = 3` is a full window later — so two calls spaced at least a window
apart are NOT always both true, refuting that conjunct of the claim as
stated. -/
theorem C4_counterexample :
    ((3 : Int) - 1 ≥ 2) ∧
    (shouldFire (fun _ => 0) "u1" "fall" 1 2).1 = false ∧
    (shouldFire ((shouldFire (fun _ => 0) "u1" "fall" 1 2).2) "u1" "fall" 3 2).1
      = true := by
  refine ⟨by norm_num, ?_, ?_⟩ <;> decide

/-- C1 (amended): on a non-resolved alert with `escalationLevel < 3` each
escalate call increments the level by exactly 1, appends one history entry,
and marks the alert `escalated` once the level reaches 3.  A call made at
level 3 is NOT a history-appending no-op: the method still increments to 4,
the `max: 3` schema validator rejects the save, and the persisted alert is
unchanged — so the persisted level never exceeds 3 and any number of
consecutive escalate calls (in particular four) never persists a level
above 3. -/
theorem C1_escalation_cap (a : Alert) (ct ci : String) (now : Int)
    (hna : a.status ≠ AlertStatus.resolved) (hlv : a.escalationLevel ≤ 3) :
    (a.escalationLevel < 3 →
      escalateOp a ct ci now = Except.ok (a.escalateMut ct ci now)) ∧
    (a.escalateMut ct ci now).escalationLevel = a.escalationLevel + 1 ∧
    (a.escalateMut ct ci now).escalationHistory.length
      = a.escalationHistory.length + 1 ∧
    (a.escalationLevel + 1 ≥ 3 →
      (a.escalateMut ct ci now).status = AlertStatus.escalated) ∧
    (a.escalationLevel = 3 →
      escalateOp a ct ci now = Except.error AlertError.ValidationError ∧
      persistedAfter a (escalateOp a ct ci now) = a) ∧
    (∀ n : ℕ, ((escalateStep ct ci now)^[n] a).escalationLevel ≤ 3) := by
  refine ⟨fun hlt => ?_, escalateMut_level a ct ci now, ?_, fun hge => ?_,
    fun h3 => ⟨?_, ?_⟩, ?_⟩
  · have hv : (a.escalateMut ct ci now).validates := by
      simp only [Alert.validates, escalateMut_level, decide_eq_true_eq]
      omega
    simp [escalateOp, hna, hv]
  · rw [escalateMut_history]
    simp
  · rw [escalateMut_status, if_pos hge]
  · have hv : ¬ (a.escalateMut ct ci now).validates = true := by
      simp only [Alert.validates, escalateMut_level, h3, decide_eq_true_eq]
      omega
    simp [escalateOp, hna, hv]
  · have hv : ¬ (a.escalateMut ct ci now).validates = true := by
      simp only [Alert.validates, escalateMut_level, h3, decide_eq_true_eq]
      omega
    simp [escalateOp, persistedAfter, hna, hv]
  · intro n
    induction n with
    | zero => simpa using hlv
    | succ m ihm =>
      rw [Function.iterate_succ_apply']
      exact escalateStep_level_le ct ci now _ ihm

/-- C1 witness: one escalate call on a fresh active alert succeeds,
incrementing the level to 1 and appending one history entry. -/
theorem C1_escalation_cap_witness :
    escalateOp freshAlert "sms" "c1" 40 = Except.ok (freshAlert.escalateMut "sms" "c1" 40) ∧
    (freshAlert.escalateMut "sms" "c1" 40).escalationLevel = 1 :=
  ⟨(C1_escalation_cap freshAlert "sms" "c1" 40 (by decide) (by decide)).1 (by decide),
   (C1_escalation_cap freshAlert "sms" "c1" 40 (by decide) (by decide)).2.1⟩

/-- C1 counterexample: on the non-resolved alert already at level 3, an
escalate call is not "a no-op beyond appending history": the method drives
the in-memory level to 4 (above the cap) and the save is rejected by the
schema validator, so no history entry is persisted (the stored history still
has 3 entries) — contradicting the claimed level-3 behaviour. -/
theorem C1_counterexample :
    levelThreeAlert.status ≠ AlertStatus.resolved ∧
    levelThreeAlert.escalationLevel = 3 ∧
    escalateOp levelThreeAlert "sms" "c1" 40 = Except.error AlertError.ValidationError ∧
    (persistedAfter levelThreeAlert
        (escalateOp levelThreeAlert "sms" "c1" 40)).escalationHistory.length = 3 ∧
    (levelThreeAlert.escalateMut "sms" "c1" 40).escalationLevel = 4 :=
  ⟨by decide, rfl, rfl, rfl, rfl⟩

/-- C10: every escalate call appends exactly one history entry whose `level`
field is the level after that call's increment, so over the alert's life the
`level` fields of the history form the run `List.range' (L0 + 1) n` — a
strictly increasing sequence of consecutive integers starting at the level
after the first escalation (for a fresh alert: 1, 2, 3, ...). -/
theorem C10_history_levels_consecutive (a : Alert) (ct ci : String) (now : Int)
    (calls : List (String × String × Int)) :
    (a.escalateMut ct ci now).escalationHistory
      = a.escalationHistory ++
        [{ level := a.escalationLevel + 1, timestamp := now, contactType := ct,
           contactId := ci, status := "sent", response := none }] ∧
    (a.escalateMut ct ci now).escalationLevel = a.escalationLevel + 1 ∧
    (escalateMutTrace a calls).escalationHistory.map EscalationEntry.level
      = a.escalationHistory.map EscalationEntry.level
        ++ List.range' (a.escalationLevel + 1) calls.length ∧
    (escalateMutTrace freshAlert calls).escalationHistory.map EscalationEntry.level
      = List.range' 1 calls.length :=
  ⟨escalateMut_history a ct ci now, escalateMut_level a ct ci now,
   (escalateMutTrace_spec calls a).2, by
      have h := (escalateMutTrace_spec calls freshAlert).2
      simpa [freshAlert] using h⟩

/-- C7 (amended): `updateNotificationStatus(contactId, status, response)`
takes no channel argument and updates the FIRST (oldest) ledger entry whose
`contactId` matches, setting its status, always stamping `lastAttempt`, and
incrementing `deliveryAttempts` only on `failed`; with no matching entry the
alert is unchanged; the ledger is append-only — `addNotification` appends
one `pending` entry with zero attempts, and updates never change the
ledger's length (nothing is removed or reordered). -/
theorem C7_ledger_behavior (a : Alert) (pre post : List Notification)
    (n : Notification) (cid ch st : String) (resp : Option String) (now tSent : Int) :
    (a.addNotification cid ch tSent).notifications
      = a.notifications ++
        [{ contactId := cid, contactType := ch, sentAt := tSent, status := "pending",
           deliveryAttempts := 0, lastAttempt := tSent, response := none }] ∧
    (a.notifications = pre ++ n :: post → (∀ m ∈ pre, m.contactId ≠ cid) →
      n.contactId = cid →
      (a.updateNotificationStatus cid st resp now).notifications
        = pre ++ applyStatusUpdate n st resp now :: post) ∧
    ((∀ m ∈ a.notifications, m.contactId ≠ cid) →
      a.updateNotificationStatus cid st resp now = a) ∧
    ((applyStatusUpdate n st resp now).status = st ∧
      (applyStatusUpdate n st resp now).lastAttempt = now ∧
      (applyStatusUpdate n st resp now).contactId = n.contactId ∧
      (applyStatusUpdate n st resp now).contactType = n.contactType ∧
      (applyStatusUpdate n st resp now).deliveryAttempts
        = (if st = "failed" then n.deliveryAttempts + 1 else n.deliveryAttempts)) ∧
    (a.updateNotificationStatus cid st resp now).notifications.length
      = a.notifications.length := by
  refine ⟨by simp [Alert.addNotification], fun hsplit hpre hn => ?_, fun hnone => ?_,
    ⟨rfl, rfl, rfl, rfl, rfl⟩, ?_⟩
  · simp only [Alert.updateNotificationStatus, hsplit]
    exact updateFirstMatching_found cid st resp now pre post n hpre hn
  · have h := updateFirstMatching_none cid st resp now a.notifications hnone
    simp [Alert.updateNotificationStatus, h]
  · simp [Alert.updateNotificationStatus, updateFirstMatching_length]

/-- C7 witness: on the two-entry ledger, the located entry is the first one
(empty prefix), updated in place ahead of the untouched second entry. -/
theorem C7_ledger_behavior_witness :
    (twoEntryAlert.updateNotificationStatus "c1" "sent" none 20).notifications
      = applyStatusUpdate
          { contactId := "c1", contactType := "email", sentAt := 0, status := "pending",
            deliveryAttempts := 0, lastAttempt := 0, response := none } "sent" none 20
        :: [{ contactId := "c1", contactType := "email", sentAt := 10, status := "pending",
              deliveryAttempts := 0, lastAttempt := 10, response := none }] := by
  have h := (C7_ledger_behavior twoEntryAlert []
    [{ contactId := "c1", contactType := "email", sentAt := 10, status := "pending",
       deliveryAttempts := 0, lastAttempt := 10, response := none }]
    { contactId := "c1", contactType := "email", sentAt := 0, status := "pending",
      deliveryAttempts := 0, lastAttempt := 0, response := none }
    "c1" "email" "sent" none 20 0).2.1 rfl (by simp) rfl
  simpa using h

/-- C7 counterexample: the ledger holds two entries for the same
`(contactId, channel)` pair, the second strictly more recent; the update
changes the FIRST (oldest) entry and leaves the most recent matching entry
`pending` — so the operation does not locate the most recent matching entry
as claimed (it also takes no channel argument at all). -/
theorem C7_counterexample :
    twoEntryAlert.notifications.map Notification.contactId = ["c1", "c1"] ∧
    twoEntryAlert.notifications.map Notification.contactType = ["email", "email"] ∧
    twoEntryAlert.notifications.map Notification.sentAt = [0, 10] ∧
    (twoEntryAlert.updateNotificationStatus "c1" "sent" none 20).notifications.map
        Notification.status = ["sent", "pending"] :=
  ⟨rfl, rfl, rfl, rfl⟩

/-- C8 code bug: `sampleContact` is active, subscribed to `fall` and has
every channel enabled, so it passes the query pre-filter — but
`isAvailableAt` evaluates `dateTime.toLocaleLowerCase()`, which does not
exist on a JavaScript `Date`, so the availability check raises `TypeError`
and the whole selection rejects instead of returning the contact (and no
primary-first/name ordering is ever applied). -/
theorem C8_contact_selection_raises :
    contactPreFilter "u1" "fall" sampleContact = true ∧
    sampleContact.isAvailableAt 0 = Except.error JsError.typeError ∧
    getAvailableContactsForAlert [sampleContact] "u1" "fall" 0
      = Except.error JsError.typeError :=
  ⟨rfl, rfl, rfl⟩

/-- C9 (amended): delivery attempts are independent per contact and per
channel — every enabled channel of every contact receives exactly one ledger
entry whatever the send outcomes are, so no failure blocks, cancels or rolls
back another attempt (the key sequence of the final ledger is the same for
any two outcome oracles). -/
theorem C9_attempts_independent (hasR : Bool) (eOk sOk eOk2 sOk2 : String → Bool)
    (now : Int) (a : Alert) (cs : List Contact) :
    notifKeys (fanout hasR eOk sOk now a cs)
      = notifKeys a
        ++ cs.flatMap (fun c => (enabledChannels c).map (fun ch => (c.id, ch))) ∧
    notifKeys (fanout hasR eOk sOk now a cs)
      = notifKeys (fanout hasR eOk2 sOk2 now a cs) := by
  refine ⟨fanout_keys hasR eOk sOk now a cs, ?_⟩
  rw [fanout_keys, fanout_keys]

/-- C9 counterexample: one contact with all three channels enabled, email
succeeding and SMS failing.  The final ledger statuses are
`[failed, pending, pending]`: the SMS failure was written onto the EMAIL
entry (first `contactId` match), the SMS entry itself stays `pending`, and
the push entry stays `pending` because the push branch never reports back —
so outcomes are NOT recorded individually per attempt as `sent`/`failed`. -/
theorem C9_counterexample :
    sampleContact.notificationPreferences.email.enabled = true ∧
    sampleContact.notificationPreferences.sms.enabled = true ∧
    sampleContact.notificationPreferences.push.enabled = true ∧
    (fanout true (fun _ => true) (fun _ => false) 5 freshAlert
        [sampleContact]).notifications.map (fun n => (n.contactType, n.status))
      = [("email", "failed"), ("sms", "pending"), ("push", "pending")] :=
  ⟨rfl, rfl, rfl, rfl⟩
